import Mathlib

/-!
Verification of `src/node/desktop/src/main/desktop-browser-window.ts`
(class `DesktopBrowserWindow`).

The file is event-wiring glue over the Electron host API. Each event
handler is embedded as a pure Lean function from its inputs (the
constructor options, the event payload, and the external collaborators:
the URL parser and the `isSafeHost` predicate, both supplied as function
arguments since they live outside this file) to a record of the
observable effects the handler performs (calling `event.preventDefault`,
`shell.openExternal`, `logger().logError`, `finishLoading`, script
injection, title changes).
-/

namespace DesktopBrowserWindow

/-- Constructor options (`WindowConstructorOptions`), after the
constructor has applied its `?? false` defaults to the optional
boolean flags.  `baseUrl` and `opener` stay optional; the content of
an opener `WebContents` is never inspected, so it is modelled as
`Unit`. -/
structure WindowConstructorOptions where
  showToolbar : Bool := false
  adjustTitle : Bool := false
  autohideMenu : Bool := false
  name : String
  baseUrl : Option String := none
  opener : Option Unit := none
  allowExternalNavigate : Bool := false
deriving Repr, DecidableEq

/-- The result of `new URL(url)` as far as the handlers look at it:
`hostname` is the bare host, `host` is the host together with an
optional port (these are the two different accessors the
`will-navigate` handler reads). -/
structure ParsedUrl where
  hostname : String
  host : String
deriving Repr, DecidableEq

/-- Observable effects of one run of the `will-navigate` handler. -/
structure NavEffects where
  /-- whether `event.preventDefault()` was called -/
  prevented : Bool
  /-- arguments of the `shell.openExternal` calls, in order -/
  externalOpens : List String
  /-- number of `logger().logError` calls -/
  loggedErrors : Nat
deriving Repr, DecidableEq

/-- `host === 'localhost' || host == '127.0.0.1' || host == '::1'`
from the `will-navigate` handler. -/
def isLocalHost (host : String) : Bool :=
  host == "localhost" || host == "127.0.0.1" || host == "::1"

/-- The `will-navigate` handler.  `parse` stands for `new URL`
(returning `none` where the constructor would throw) and `safeHost`
for the external `isSafeHost` collaborator.  Mirrors the source: a
parse failure logs and vetoes; a local hostname returns with no
action; otherwise, when `allowExternalNavigate` is false the URL is
parsed a second time and an unsafe `host` vetoes the navigation and
opens the original `url` string externally. -/
def willNavigate (parse : String → Option ParsedUrl) (safeHost : String → Bool)
    (allowExternalNavigate : Bool) (url : String) : NavEffects :=
  match parse url with
  | none => { prevented := true, externalOpens := [], loggedErrors := 1 }
  | some targetUrl =>
    let host := targetUrl.hostname
    if isLocalHost host then
      { prevented := false, externalOpens := [], loggedErrors := 0 }
    else if !allowExternalNavigate then
      match parse url with
      | some targetUrl2 =>
        if !safeHost targetUrl2.host then
          { prevented := true, externalOpens := [url], loggedErrors := 0 }
        else
          { prevented := false, externalOpens := [], loggedErrors := 0 }
      | none => { prevented := true, externalOpens := [], loggedErrors := 1 }
    else
      { prevented := false, externalOpens := [], loggedErrors := 0 }

/-- The `disposition` field of a `setWindowOpenHandler` request. -/
inductive Disposition
  | defaultDisp
  | foregroundTab
  | backgroundTab
  | newWindow
  | saveToDisk
  | other
deriving Repr, DecidableEq

/-- `details.disposition === 'foreground-tab' || details.disposition === 'background-tab'`. -/
def isTabDisposition : Disposition → Bool
  | .foregroundTab => true
  | .backgroundTab => true
  | _ => false

/-- JavaScript truthiness of `this.options.baseUrl`: `undefined` and
the empty string are falsy, every other string is truthy. -/
def baseUrlTruthy : Option String → Bool
  | none => false
  | some s => !(s == "")

/-- Outcome of the `setWindowOpenHandler` callback. -/
inductive WindowOpenDecision
  /-- returned `\x7b action: 'deny' \x7d` -/
  | deny
  /-- returned `appState().windowOpening()` -/
  | delegated
deriving Repr, DecidableEq

/-- Effects and outcome of one run of the `setWindowOpenHandler`
callback. -/
structure WindowOpenResult where
  externalOpens : List String
  decision : WindowOpenDecision
deriving Repr, DecidableEq

/-- The `setWindowOpenHandler` callback: a truthy `baseUrl` together
with a foreground- or background-tab disposition opens the URL
externally and denies in-host creation; every other case delegates to
`appState().windowOpening()`. -/
def windowOpenHandler (baseUrl : Option String) (dispo : Disposition)
    (url : String) : WindowOpenResult :=
  if baseUrlTruthy baseUrl && isTabDisposition dispo then
    { externalOpens := [url], decision := .deny }
  else
    { externalOpens := [], decision := .delegated }

end DesktopBrowserWindow

namespace DesktopBrowserWindow

/-- The scripts `finishLoading` injects on success: registers this
window with its opener, keyed by the window name (the template
`window.opener.registerDesktopChildWindow(name, window)` guarded on
`window.opener && window.opener.registerDesktopChildWindow`). -/
inductive RegisterScript
  | registerChild (name : String)
deriving Repr, DecidableEq

/-- `finishLoading(succeeded)`: on success, one-shot `syncWindowTitle`
(copy the content title onto the chrome title when `adjustTitle` is
set) and injection of the child-registration script; on failure,
nothing.  Returns the new chrome title and the injected scripts. -/
def finishLoading (adjustTitle : Bool) (contentTitle chromeTitle name : String)
    (succeeded : Bool) : String × List RegisterScript :=
  if succeeded then
    ((if adjustTitle then contentTitle else chromeTitle), [.registerChild name])
  else
    (chromeTitle, [])

/-- The two load-lifecycle events the wrapper subscribes to. -/
inductive LoadEvent
  | didFinishLoad
  | didFailLoad
deriving Repr, DecidableEq

/-- Observable effects of one load-event handler run. -/
structure LoadEffects where
  /-- number of `toolbarManager.createAndShowToolbar` attempts -/
  toolbarAttempts : Nat
  /-- the `succeeded` argument of each `finishLoading` call, in order -/
  finishCalls : List Bool
deriving Repr, DecidableEq

/-- One step of the load state machine.  The state is the private
`failLoad` flag.  `did-finish-load` first runs the toolbar branch
(whenever `showToolbar` is set, before the flag is consulted), then
either calls `finishLoading(true)` (flag clear) or clears the flag
(flag set).  `did-fail-load` sets the flag and calls
`finishLoading(false)`. -/
def loadStep (showToolbar failLoad : Bool) : LoadEvent → Bool × LoadEffects
  | .didFinishLoad =>
    let t : Nat := if showToolbar then 1 else 0
    if !failLoad then
      (failLoad, { toolbarAttempts := t, finishCalls := [true] })
    else
      (false, { toolbarAttempts := t, finishCalls := [] })
  | .didFailLoad =>
    (true, { toolbarAttempts := 0, finishCalls := [false] })

/-- Run a sequence of load events from a given `failLoad` state,
collecting each handler run's effects. -/
def runLoadEvents (showToolbar : Bool) : Bool → List LoadEvent → Bool × List LoadEffects
  | s, [] => (s, [])
  | s, e :: es =>
    let r1 := loadStep showToolbar s e
    let r2 := runLoadEvents showToolbar r1.1 es
    (r2.1, r1.2 :: r2.2)

end DesktopBrowserWindow

namespace DesktopBrowserWindow

/-- `isPre ps xs` holds iff `ps` starts `xs` (Boolean list match). -/
def isPre : List Char → List Char → Bool
  | [], _ => true
  | _ :: _, [] => false
  | a :: as, b :: bs => a == b && isPre as bs

/-- `containsSub pat xs`: `pat` occurs contiguously inside `xs`. -/
def containsSub (pat : List Char) : List Char → Bool
  | [] => isPre pat []
  | b :: bs => isPre pat (b :: bs) || containsSub pat bs

/-- JavaScript `s.includes(pat)`: substring containment. -/
def stringIncludes (s pat : String) : Bool :=
  containsSub pat.toList s.toList

/-- The `close` handler is only registered when the window name does
not include `'satellite'` (`!this.options.name.includes('satellite')`). -/
def closeHandlerRegistered (name : String) : Bool :=
  !(stringIncludes name "satellite")

/-- The script `closeEvent` injects, by target scope.  The first form
guards on `window.opener && window.opener.unregisterDesktopChildWindow`
and calls `window.opener.unregisterDesktopChildWindow(name)`; the
second guards on `window.unregisterDesktopChildWindow` and calls
`window.unregisterDesktopChildWindow(name)`. -/
inductive UnregisterScript
  | viaWindowOpener (name : String)
  | viaWindow (name : String)
deriving Repr, DecidableEq

/-- Observable effects of one `closeEvent` run.  `injectionResult` is
the outcome of the asynchronous `executeJavaScript` promise; an error
is consumed by the `.catch` and logged. -/
structure CloseEffects where
  injected : List UnregisterScript
  loggedErrors : Nat
  /-- whether `event.preventDefault()` was called (never is) -/
  prevented : Bool
deriving Repr, DecidableEq

/-- `closeEvent`: with no configured `opener` it injects the
`window.opener.unregisterDesktopChildWindow` script, otherwise the
`window.unregisterDesktopChildWindow` script; a rejected injection is
logged and not rethrown, and the handler never prevents the close. -/
def closeEvent (name : String) (opener : Option Unit)
    (injectionResult : Except String Unit) : CloseEffects :=
  let logged : Nat := match injectionResult with
    | .ok _ => 0
    | .error _ => 1
  match opener with
  | none =>
    { injected := [.viaWindowOpener name], loggedErrors := logged, prevented := false }
  | some _ =>
    { injected := [.viaWindow name], loggedErrors := logged, prevented := false }

/-- Scripts injected when the host delivers a `close` event to the
window: the registered handler runs `closeEvent`; for satellite-named
windows no handler was registered, so nothing runs. -/
def onCloseScripts (name : String) (opener : Option Unit)
    (injectionResult : Except String Unit) : List UnregisterScript :=
  if closeHandlerRegistered name then
    (closeEvent name opener injectionResult).injected
  else
    []

/-- `adjustWindowTitle(title, explicitSet)`: sets the chrome title to
`title` only when both `adjustTitle` and `explicitSet` hold.  Returns
the chrome title after the call.  The `page-title-updated` handler
forwards the event payload to this method unchanged. -/
def adjustWindowTitle (adjustTitle : Bool) (chromeTitle title : String)
    (explicitSet : Bool) : String :=
  if adjustTitle && explicitSet then title else chromeTitle

end DesktopBrowserWindow

namespace DesktopBrowserWindow

/-- A concrete URL parser used by the witnesses: recognises one
well-formed non-local URL, one local URL, and nothing else. -/
def witnessParse : String → Option ParsedUrl := fun s =>
  if s == "https://example.com/doc" then
    some { hostname := "example.com", host := "example.com" }
  else if s == "http://localhost:8787/" then
    some { hostname := "localhost", host := "localhost:8787" }
  else
    none

end DesktopBrowserWindow

open DesktopBrowserWindow

/-- C1: with `allowExternalNavigate = false`, a URL that parses, whose
hostname is not `localhost`/`127.0.0.1`/`::1`, and whose host the
safe-host predicate rejects, is vetoed (`preventDefault`) and exactly
one `shell.openExternal` call is issued, with the original URL string
as its argument. -/
theorem c1_unsafe_host_vetoed_and_opened_externally
    (parse : String → Option ParsedUrl) (safeHost : String → Bool)
    (url : String) (u : ParsedUrl)
    (hparse : parse url = some u)
    (hlocal : isLocalHost u.hostname = false)
    (hsafe : safeHost u.host = false) :
    willNavigate parse safeHost false url =
      { prevented := true, externalOpens := [url], loggedErrors := 0 } := by
  simp [willNavigate, hparse, hlocal, hsafe]

/-- Witness for C1 at a concrete parser, predicate and URL. -/
theorem c1_unsafe_host_vetoed_and_opened_externally_witness :
    willNavigate witnessParse (fun _ => false) false "https://example.com/doc" =
      { prevented := true, externalOpens := ["https://example.com/doc"], loggedErrors := 0 } :=
  c1_unsafe_host_vetoed_and_opened_externally witnessParse (fun _ => false)
    "https://example.com/doc" { hostname := "example.com", host := "example.com" }
    (by decide) (by decide) rfl

/-- C2: a URL that parses and whose hostname is `localhost`,
`127.0.0.1` or `::1` navigates in place unmodified — no
`preventDefault`, no `shell.openExternal` — for both values of
`allowExternalNavigate`. -/
theorem c2_local_host_proceeds_unmodified
    (parse : String → Option ParsedUrl) (safeHost : String → Bool)
    (allowExternalNavigate : Bool) (url : String) (u : ParsedUrl)
    (hparse : parse url = some u)
    (hlocal : isLocalHost u.hostname = true) :
    willNavigate parse safeHost allowExternalNavigate url =
      { prevented := false, externalOpens := [], loggedErrors := 0 } := by
  simp [willNavigate, hparse, hlocal]

/-- Witness for C2 at a concrete local URL, for both flag values. -/
theorem c2_local_host_proceeds_unmodified_witness :
    willNavigate witnessParse (fun _ => false) false "http://localhost:8787/" =
        { prevented := false, externalOpens := [], loggedErrors := 0 } ∧
    willNavigate witnessParse (fun _ => false) true "http://localhost:8787/" =
        { prevented := false, externalOpens := [], loggedErrors := 0 } :=
  ⟨c2_local_host_proceeds_unmodified witnessParse (fun _ => false) false
      "http://localhost:8787/" { hostname := "localhost", host := "localhost:8787" }
      (by decide) (by decide),
   c2_local_host_proceeds_unmodified witnessParse (fun _ => false) true
      "http://localhost:8787/" { hostname := "localhost", host := "localhost:8787" }
      (by decide) (by decide)⟩

/-- C3: a URL string that fails to parse is vetoed, the error is
logged once, and no `shell.openExternal` call occurs. -/
theorem c3_malformed_url_vetoed_logged_no_external
    (parse : String → Option ParsedUrl) (safeHost : String → Bool)
    (allowExternalNavigate : Bool) (url : String)
    (hparse : parse url = none) :
    willNavigate parse safeHost allowExternalNavigate url =
      { prevented := true, externalOpens := [], loggedErrors := 1 } := by
  simp [willNavigate, hparse]

/-- Witness for C3 at a concrete malformed URL string. -/
theorem c3_malformed_url_vetoed_logged_no_external_witness :
    willNavigate witnessParse (fun _ => true) false "not a url" =
      { prevented := true, externalOpens := [], loggedErrors := 1 } :=
  c3_malformed_url_vetoed_logged_no_external witnessParse (fun _ => true)
    false "not a url" (by decide)

/-- C4: with `allowExternalNavigate = true`, a URL that parses and is
not local proceeds in place — no `preventDefault`, no
`shell.openExternal`. -/
theorem c4_allow_external_proceeds_in_place
    (parse : String → Option ParsedUrl) (safeHost : String → Bool)
    (url : String) (u : ParsedUrl)
    (hparse : parse url = some u)
    (hlocal : isLocalHost u.hostname = false) :
    willNavigate parse safeHost true url =
      { prevented := false, externalOpens := [], loggedErrors := 0 } := by
  simp [willNavigate, hparse, hlocal]

/-- Witness for C4 at a concrete non-local URL. -/
theorem c4_allow_external_proceeds_in_place_witness :
    willNavigate witnessParse (fun _ => false) true "https://example.com/doc" =
      { prevented := false, externalOpens := [], loggedErrors := 0 } :=
  c4_allow_external_proceeds_in_place witnessParse (fun _ => false)
    "https://example.com/doc" { hostname := "example.com", host := "example.com" }
    (by decide) (by decide)

/-- C5: in a load-event sequence, a `did-fail-load` sets the fail flag
and calls `finishLoading(false)` exactly once; the immediately
following `did-finish-load` clears the flag and calls nothing; a
further `did-finish-load` with the flag clear calls
`finishLoading(true)`.  Stated per step and over the three-event run. -/
theorem c5_fail_then_finish_state_machine (tb s0 : Bool) :
    (loadStep tb s0 .didFailLoad).1 = true ∧
    (loadStep tb s0 .didFailLoad).2.finishCalls = [false] ∧
    (loadStep tb true .didFinishLoad).1 = false ∧
    (loadStep tb true .didFinishLoad).2.finishCalls = [] ∧
    (loadStep tb false .didFinishLoad).2.finishCalls = [true] ∧
    runLoadEvents tb s0 [.didFailLoad, .didFinishLoad, .didFinishLoad] =
      (false,
       [{ toolbarAttempts := 0, finishCalls := [false] },
        { toolbarAttempts := if tb then 1 else 0, finishCalls := [] },
        { toolbarAttempts := if tb then 1 else 0, finishCalls := [true] }]) := by
  cases tb <;> cases s0 <;> decide

/-- C10: with `showToolbar = true`, every `did-finish-load` attempts
toolbar creation exactly once, whatever the fail flag — in particular
also when the load actually failed (flag set), since the toolbar
branch precedes the fail-flag check. -/
theorem c10_toolbar_attempted_even_after_failure (failLoad : Bool) :
    (loadStep true failLoad .didFinishLoad).2.toolbarAttempts = 1 := by
  cases failLoad <;> rfl

/-- C6: a foreground- or background-tab disposition together with a
configured (truthy) base URL opens the URL externally and denies
in-host creation; every other combination issues no external open and
delegates to the window-opening arbitration collaborator. -/
theorem c6_window_open_arbitration (baseUrl : Option String)
    (dispo : Disposition) (url : String) :
    ((baseUrlTruthy baseUrl && isTabDisposition dispo) = true →
      windowOpenHandler baseUrl dispo url =
        { externalOpens := [url], decision := .deny }) ∧
    ((baseUrlTruthy baseUrl && isTabDisposition dispo) = false →
      windowOpenHandler baseUrl dispo url =
        { externalOpens := [], decision := .delegated }) := by
  constructor <;> intro h <;> simp [windowOpenHandler, h]

/-- Witness for C6: a tab disposition with a base URL is opened
externally and denied; without a base URL it is delegated. -/
theorem c6_window_open_arbitration_witness :
    windowOpenHandler (some "http://127.0.0.1:8787") .foregroundTab
        "https://example.com/doc" =
      { externalOpens := ["https://example.com/doc"], decision := .deny } ∧
    windowOpenHandler none .foregroundTab "https://example.com/doc" =
      { externalOpens := [], decision := .delegated } :=
  ⟨(c6_window_open_arbitration (some "http://127.0.0.1:8787") .foregroundTab
      "https://example.com/doc").1 (by decide),
   (c6_window_open_arbitration none .foregroundTab
      "https://example.com/doc").2 (by decide)⟩

/-- C7: a window whose name includes the satellite marker has no
`close` handler registered, so a close event injects no
unregister-child-window script. -/
theorem c7_satellite_close_injects_nothing (name : String)
    (opener : Option Unit) (res : Except String Unit)
    (h : stringIncludes name "satellite" = true) :
    onCloseScripts name opener res = [] := by
  simp [onCloseScripts, closeHandlerRegistered, h]

/-- Witness for C7 at a concrete satellite window name. -/
theorem c7_satellite_close_injects_nothing_witness :
    onCloseScripts "rstudio-satellite-window" none (Except.ok ()) = [] :=
  c7_satellite_close_injects_nothing "rstudio-satellite-window" none
    (Except.ok ()) (by decide)

/-- C8: on a non-satellite close, `closeEvent` injects the
`window.opener.unregisterDesktopChildWindow(name)` script when no
opener is configured and the `window.unregisterDesktopChildWindow(name)`
script when one is; a failed injection is logged once and never
propagated, and the handler never prevents the close. -/
theorem c8_close_event_script_choice_and_errors (name e : String)
    (res : Except String Unit) :
    (closeEvent name none res).injected = [.viaWindowOpener name] ∧
    (closeEvent name (some ()) res).injected = [.viaWindow name] ∧
    (∀ opener : Option Unit,
      (closeEvent name opener (.error e)).loggedErrors = 1) ∧
    (∀ opener : Option Unit, (closeEvent name opener res).prevented = false) := by
  refine ⟨rfl, rfl, ?_, ?_⟩
  · intro opener; cases opener <;> rfl
  · intro opener; cases opener <;> rfl

/-- C9: with `adjustTitle = false` no title update (explicit or
inferred) changes the chrome title; with `adjustTitle = true` an
explicit update sets the chrome title to the new title and an
inferred one leaves it unchanged. -/
theorem c9_title_sync_policy (chromeTitle title : String) (explicitSet : Bool) :
    adjustWindowTitle false chromeTitle title explicitSet = chromeTitle ∧
    adjustWindowTitle true chromeTitle title true = title ∧
    adjustWindowTitle true chromeTitle title false = chromeTitle := by
  cases explicitSet <;> exact ⟨rfl, rfl, rfl⟩
